import Mathlib

/-!
Verification of the core orchestration code of the beiwe-backend data
processing module (src/celery_data_processing/data_processing_tasks.py).

The two functions under study are:
* celery_process_file_chunks  -- the per-user convergence loop plus the
  error-reporting epilogue;
* create_file_processing_tasks -- the run orchestrator: lock, deadline,
  dispatch, polling loop, unlock.

External collaborators (the persistent storage layer FilesToProcess, the
chunk processor do_process_user_file_chunks, the FileProcessLock primitive,
the cronutils ErrorHandler and the email channel) are modelled as explicit
parameters or small state records, with doc comments noting where their
behaviour is taken from the specification rather than from code under src/.
-/

set_option autoImplicit false

namespace BeiweProc

/-- Output of one run of the per-user convergence loop of
celery_process_file_chunks.  Besides the final accumulated
number_bad_files value and the final external state, the model records the
number of executed loop iterations, the errors accumulated in the
ErrorHandler, and the skip_count argument of each invocation of
do_process_user_file_chunks, in order. -/
structure LoopOut (σ : Type) where
  iterations : Nat
  bad : Nat
  errors : List String
  calls : List Nat
  state : σ

/-- The while-True loop of celery_process_file_chunks, translated from the
source.  The storage layer and the chunk processor are parameters:
count models FilesToProcess.count(user_id=...) as a pure query of the
external state, and process models do_process_user_file_chunks, returning
the number of newly found bad files, the errors it raised into the error
handler, and the new external state.  Per source, each iteration records
the previous bad count, reads the pending count, calls the processor with
skip_count equal to the accumulated bad count, re-reads the pending count,
and breaks exactly when the pending count is unchanged and no new bad
files were found.  The loop is given fuel because the source loop need not
terminate for arbitrary collaborator behaviour; none means the fuel was
exhausted before the loop broke. -/
def convergenceLoop {σ : Type} (count : σ → Nat)
    (process : σ → Nat → Nat × List String × σ) :
    Nat → Nat → List String → σ → Option (LoopOut σ)
  | 0, _, _, _ => none
  | fuel+1, bad, errs, env =>
    match process env bad with
    | (delta, newErrs, env2) =>
      if count env = count env2 ∧ bad = bad + delta then
        some ⟨1, bad + delta, errs ++ newErrs, [bad], env2⟩
      else
        match convergenceLoop count process fuel (bad + delta) (errs ++ newErrs) env2 with
        | none => none
        | some out => some ⟨out.iterations + 1, out.bad, out.errors, bad :: out.calls, out.state⟩

/-- Modelled from the spec: the error-reporting epilogue of
celery_process_file_chunks.  The cronutils ErrorHandler (raise_errors
raises one bundled error holding all accumulated errors when the collector
is non-empty) and libs.logging.email_bundled_error are not under src/;
their behaviour follows the specification.  In the source, the bundled
error raised by raise_errors is caught and handed to email_bundled_error;
the email call itself is not inside any handler, so a failure of the email
channel propagates out of the worker.  The email parameter is the outcome
of the email channel, and the result is either the list of reports sent
(at most one, holding all accumulated errors) or the exception that
escaped the worker. -/
def errorReporting (errors : List String) (email : Except String Unit) :
    Except String (List (List String)) :=
  if errors.isEmpty then Except.ok []
  else
    match email with
    | Except.ok () => Except.ok [errors]
    | Except.error e => Except.error e

/-- Translation of celery_process_file_chunks: the convergence loop
followed by the error-reporting epilogue, from the source. -/
def celery_process_file_chunks {σ : Type} (count : σ → Nat)
    (process : σ → Nat → Nat × List String × σ) (email : Except String Unit)
    (fuel : Nat) (env : σ) :
    Option (LoopOut σ × Except String (List (List String))) :=
  match convergenceLoop count process fuel 0 [] env with
  | none => none
  | some out => some (out, errorReporting out.errors email)

/-- The state strings the polling loop of create_file_processing_tasks
treats as still outstanding, copied verbatim from the source. -/
def STARTED_OR_WAITING : List String :=
  ["STARTED", "whatever the state is that means queued"]

/-- The three per-pass accumulators of the polling loop of
create_file_processing_tasks: successful, failed and new_running, each a
list of future indices in the order the source appends them. -/
structure PollPassOut where
  successful : List Nat
  failed : List Nat
  newRunning : List Nat

/-- One pass of the polling loops for-loop, translated from the source:
each future is appended to successful when its observed state is SUCCESS,
to failed when it is FAILURE, and to new_running when it is in
STARTED_OR_WAITING; the three tests are independent ifs in the source.
The state of each future during the pass is modelled as one snapshot
st : Nat → String (each future is identified by its index in the
dispatched list). -/
def pollPass (st : Nat → String) : List Nat → PollPassOut
  | [] => ⟨[], [], []⟩
  | f :: rest =>
    let p := pollPass st rest
    ⟨(if st f = "SUCCESS" then [f] else []) ++ p.successful,
     (if st f = "FAILURE" then [f] else []) ++ p.failed,
     (if st f ∈ STARTED_OR_WAITING then [f] else []) ++ p.newRunning⟩

/-- The while-running polling loop of create_file_processing_tasks,
translated from the source: while the running list is non-empty, partition
it with pollPass, replace running by new_running, and sleep 5 seconds at
the end of the pass.  states gives the snapshot of future states observed
in each pass (pass index, then future index).  The result is the list of
per-pass partitions and the number of sleep(5) calls executed; none means
the fuel was exhausted while futures were still outstanding. -/
def pollLoop (states : Nat → Nat → String) :
    Nat → Nat → List Nat → Option (List PollPassOut × Nat)
  | _, _, [] => some ([], 0)
  | 0, _, _ :: _ => none
  | fuel+1, idx, f :: rest =>
    let p := pollPass (states idx) (f :: rest)
    match pollLoop states fuel (idx+1) p.newRunning with
    | none => none
    | some (ps, sl) => some (p :: ps, sl + 1)

/-- The outstanding list seen at the start of each polling pass: before
pass 0 it is the initially dispatched list, and each pass replaces it with
the new_running component of its partition.  Used to state properties of
pollLoop. -/
def runningSeq (states : Nat → Nat → String) (idx : Nat) (running : List Nat) :
    Nat → List Nat
  | 0 => running
  | i+1 => (pollPass (states (idx + i)) (runningSeq states idx running i)).newRunning

/-- A wall-clock timestamp as built by the Python datetime constructor in
the source; datetime(year, month, day, hour) leaves minute (and smaller
fields) zero. -/
structure Datetime where
  year : Nat
  month : Nat
  day : Nat
  hour : Nat
  minute : Nat

/-- The Python exceptions that can escape create_file_processing_tasks in
the model: ProcessingOverlapError raised when the lock is already held,
and ValueError raised by the datetime constructor on an out-of-range hour
field. -/
inductive PyErr where
  | processingOverlapError
  | valueError

/-- The Python datetime constructor as used at the expiry computation:
datetime(year, month, day, hour=h) validates its fields and raises
ValueError when the hour field is outside 0..23.  Year, month and day come
from datetime.now() in the source and are taken as valid. -/
def pyDatetime (year month day hour : Nat) : Except PyErr Datetime :=
  if hour ≤ 23 then Except.ok ⟨year, month, day, hour, 0⟩
  else Except.error PyErr.valueError

/-- The external world as seen by one invocation of
create_file_processing_tasks.  lockHeld models the persisted
FileProcessLock flag (modelled from the spec: islocked reads it, lock sets
it, unlock clears it; the lock record itself is in db.data_access_models,
not under src/).  The year/month/day/hour/minute fields are datetime.now()
at invocation.  userIds is the list produced by
FilesToProcess(field="user_id"), and states gives the observed celery
future state strings per polling pass and future index. -/
structure RunEnv where
  lockHeld : Bool
  year : Nat
  month : Nat
  day : Nat
  hour : Nat
  minute : Nat
  userIds : List String
  states : Nat → Nat → String

/-- Observable trace of one invocation of create_file_processing_tasks:
the outcome (normal return or escaped exception), the final lock flag,
whether FileProcessLock.lock() was called, how many times
FileProcessLock.unlock() was called, the dispatched work units with the
expiry attached to each, the per-pass polling partitions, and the number
of sleep(5) calls. -/
structure RunTrace where
  outcome : Except PyErr Unit
  lockFinal : Bool
  acquired : Bool
  unlocks : Nat
  dispatched : List (String × Datetime)
  passes : List PollPassOut
  sleeps : Nat

/-- Translation of create_file_processing_tasks from the source.  In order:
raise ProcessingOverlapError when FileProcessLock.islocked(); lock();
compute expiry = datetime(now.year, now.month, now.day, hour=now.hour+1)
(which raises ValueError when now.hour = 23, leaving the lock held, since
the source has no handler between lock() and unlock()); build the
deduplicated user id set; dispatch queue_user per user id with the expiry
attached; run the polling loop; unlock().  fuel bounds the polling loop;
none means polling never drained. -/
def create_file_processing_tasks (env : RunEnv) (fuel : Nat) : Option RunTrace :=
  if env.lockHeld then
    some ⟨Except.error PyErr.processingOverlapError, env.lockHeld, false, 0, [], [], 0⟩
  else
    match pyDatetime env.year env.month env.day (env.hour + 1) with
    | Except.error e => some ⟨Except.error e, true, true, 0, [], [], 0⟩
    | Except.ok expiry =>
      let users := env.userIds.dedup
      match pollLoop env.states fuel 0 (List.range users.length) with
      | none => none
      | some (ps, sl) =>
        some ⟨Except.ok (), false, true, 1, users.map (fun u => (u, expiry)), ps, sl⟩

/-- A future lands in the successful accumulator of a polling pass exactly
when it was outstanding and its observed state is SUCCESS. -/
theorem pollPass_mem_successful (st : Nat → String) (l : List Nat) (f : Nat) :
    f ∈ (pollPass st l).successful ↔ f ∈ l ∧ st f = "SUCCESS" := by
  induction l with
  | nil => simp [pollPass]
  | cons g rest ih =>
    by_cases hfg : f = g
    · subst hfg
      by_cases hg : st f = "SUCCESS"
      all_goals simp [pollPass, ih, hg]
    · by_cases hg : st g = "SUCCESS"
      all_goals simp [pollPass, ih, hg, hfg]
/-- A future lands in the failed accumulator of a polling pass exactly
when it was outstanding and its observed state is FAILURE. -/
theorem pollPass_mem_failed (st : Nat → String) (l : List Nat) (f : Nat) :
    f ∈ (pollPass st l).failed ↔ f ∈ l ∧ st f = "FAILURE" := by
  induction l with
  | nil => simp [pollPass]
  | cons g rest ih =>
    by_cases hfg : f = g
    · subst hfg
      by_cases hg : st f = "FAILURE"
      all_goals simp [pollPass, ih, hg]
    · by_cases hg : st g = "FAILURE"
      all_goals simp [pollPass, ih, hg, hfg]
/-- A future lands in the new_running accumulator of a polling pass
exactly when it was outstanding and its observed state is in
STARTED_OR_WAITING. -/
theorem pollPass_mem_newRunning (st : Nat → String) (l : List Nat) (f : Nat) :
    f ∈ (pollPass st l).newRunning ↔ f ∈ l ∧ st f ∈ STARTED_OR_WAITING := by
  induction l with
  | nil => simp [pollPass]
  | cons g rest ih =>
    by_cases hfg : f = g
    · subst hfg
      by_cases hg : st f ∈ STARTED_OR_WAITING
      all_goals simp [pollPass, ih, hg]
    · by_cases hg : st g ∈ STARTED_OR_WAITING
      all_goals simp [pollPass, ih, hg, hfg]
/-- Shifting the outstanding-list sequence by one pass. -/
theorem runningSeq_shift (states : Nat → Nat → String) (idx : Nat)
    (running : List Nat) (i : Nat) :
    runningSeq states idx running (i + 1) =
      runningSeq states (idx + 1) ((pollPass (states idx) running).newRunning) i := by
  induction i with
  | zero => simp [runningSeq]
  | succ i ih =>
    rw [runningSeq, ih, runningSeq]
    have hidx : idx + (i + 1) = idx + 1 + i := by omega
    rw [hidx]

/-- Full characterization of a terminating polling loop: the number of
sleep(5) calls equals the number of executed passes, the outstanding list
is empty after the last pass and non-empty before every executed pass, and
each recorded pass is the pollPass partition of the outstanding list it
started from. -/
theorem pollLoop_spec (states : Nat → Nat → String) :
    ∀ (fuel idx : Nat) (running : List Nat) (ps : List PollPassOut) (sl : Nat),
    pollLoop states fuel idx running = some (ps, sl) →
    sl = ps.length ∧
    runningSeq states idx running ps.length = [] ∧
    ∀ i, ∀ h : i < ps.length,
      runningSeq states idx running i ≠ [] ∧
      ps.get ⟨i, h⟩ = pollPass (states (idx + i)) (runningSeq states idx running i) := by
  intro fuel
  induction fuel with
  | zero =>
    intro idx running ps sl h
    cases running with
    | nil =>
      simp [pollLoop] at h
      obtain ⟨rfl, rfl⟩ := h
      exact ⟨rfl, rfl, fun i hi => absurd hi (by simp)⟩
    | cons f rest => simp [pollLoop] at h
  | succ fuel ih =>
    intro idx running ps sl h
    cases running with
    | nil =>
      simp [pollLoop] at h
      obtain ⟨rfl, rfl⟩ := h
      exact ⟨rfl, rfl, fun i hi => absurd hi (by simp)⟩
    | cons f rest =>
      rw [pollLoop] at h
      cases hrec : pollLoop states fuel (idx+1) (pollPass (states idx) (f :: rest)).newRunning with
      | none => rw [hrec] at h; cases h
      | some pr =>
        obtain ⟨ps', sl'⟩ := pr
        rw [hrec] at h
        simp only [Option.some.injEq, Prod.mk.injEq] at h
        obtain ⟨rfl, rfl⟩ := h
        obtain ⟨hsl, hterm, hidx⟩ :=
          ih (idx+1) (pollPass (states idx) (f :: rest)).newRunning ps' sl' hrec
        refine ⟨by simp [hsl], ?_, ?_⟩
        · rw [List.length_cons, runningSeq_shift]
          exact hterm
        · intro i hi
          cases i with
          | zero =>
            refine ⟨by simp [runningSeq], ?_⟩
            simp [runningSeq]
          | succ j =>
            have hj : j < ps'.length := by simpa using hi
            obtain ⟨hne, hget⟩ := hidx j hj
            rw [runningSeq_shift]
            refine ⟨hne, ?_⟩
            have hadd : idx + (j + 1) = idx + 1 + j := by omega
            rw [hadd]
            simpa using hget

/-- Every successful run of the convergence loop performed at least one
iteration and its first processor call used the bad count it started with
as skip_count. -/
theorem convergenceLoop_head {σ : Type} (count : σ → Nat)
    (process : σ → Nat → Nat × List String × σ)
    (fuel bad : Nat) (errs : List String) (env : σ) (out : LoopOut σ)
    (h : convergenceLoop count process fuel bad errs env = some out) :
    1 ≤ out.iterations ∧ ∃ tl, out.calls = bad :: tl := by
  cases fuel with
  | zero => simp [convergenceLoop] at h
  | succ fuel =>
    rcases hp : process env bad with ⟨delta, newErrs, env2⟩
    rw [convergenceLoop, hp] at h
    dsimp only at h
    by_cases hc : count env = count env2 ∧ bad = bad + delta
    · rw [if_pos hc] at h
      cases h
      exact ⟨Nat.le_refl 1, [], rfl⟩
    · rw [if_neg hc] at h
      cases hrec : convergenceLoop count process fuel (bad + delta) (errs ++ newErrs) env2 with
      | none => rw [hrec] at h; cases h
      | some out2 =>
        rw [hrec] at h
        cases h
        exact ⟨Nat.le_add_left 1 out2.iterations, out2.calls, rfl⟩

/-- Termination of the convergence loop with an iteration bound: when the
processor never increases the pending count and never drives the
accumulated bad count beyond B, the loop breaks within
count env + (B - bad) + 1 iterations, and the number of executed
iterations is at most (pending at entry) + (bad files found) + 1. -/
theorem convergenceLoop_total {σ : Type} (count : σ → Nat)
    (process : σ → Nat → Nat × List String × σ) (B : Nat)
    (hcount : ∀ s k, count (process s k).2.2 ≤ count s)
    (hbad : ∀ s k, k ≤ B → k + (process s k).1 ≤ B) :
    ∀ (fuel bad : Nat) (errs : List String) (env : σ),
      bad ≤ B → count env + (B - bad) + 1 ≤ fuel →
      ∃ out, convergenceLoop count process fuel bad errs env = some out ∧
        out.iterations + bad ≤ count env + out.bad + 1 ∧
        bad ≤ out.bad ∧ out.bad ≤ B := by
  intro fuel
  induction fuel with
  | zero =>
    intro bad errs env hb hf
    omega
  | succ fuel ih =>
    intro bad errs env hb hf
    rcases hp : process env bad with ⟨delta, newErrs, env2⟩
    have hc2 : count env2 ≤ count env := by
      have hcc := hcount env bad
      rw [hp] at hcc
      exact hcc
    have hbd : bad + delta ≤ B := by
      have hbb := hbad env bad hb
      rw [hp] at hbb
      exact hbb
    by_cases hcond : count env = count env2 ∧ bad = bad + delta
    · refine ⟨⟨1, bad + delta, errs ++ newErrs, [bad], env2⟩, ?_, ?_, ?_, ?_⟩
      · rw [convergenceLoop, hp]
        dsimp only
        rw [if_pos hcond]
      · dsimp only
        omega
      · dsimp only
        omega
      · dsimp only
        omega
    · have hfuel2 : count env2 + (B - (bad + delta)) + 1 ≤ fuel := by omega
      obtain ⟨out, hout, h1, h2, h3⟩ := ih (bad + delta) (errs ++ newErrs) env2 hbd hfuel2
      refine ⟨⟨out.iterations + 1, out.bad, out.errors, bad :: out.calls, out.state⟩, ?_, ?_, ?_, ?_⟩
      · rw [convergenceLoop, hp]
        dsimp only
        rw [if_neg hcond, hout]
      · dsimp only
        omega
      · dsimp only
        omega
      · dsimp only
        omega

/-- Claim C1, counterexample: a user with 0 pending files and a processor
that finds no bad files gives total_files = 0 and distinct_bad_files = 0,
so the claimed bound allows at most 0 iterations; the source loop, being a
while-True loop, still executes 1 iteration before breaking. -/
theorem C1_counterexample :
    convergenceLoop (fun _ : Unit => 0) (fun s _ => (0, [], s)) 5 0 [] ()
      = some ⟨1, 0, [], [0], ()⟩ ∧ 0 + 0 < 1 :=
  ⟨rfl, by decide⟩

/-- Claim C1, amended: for every finite input (the processor never
increases the pending count and never drives the accumulated bad count
beyond a finite total B), the convergence loop terminates, and it performs
at most total_files + distinct_bad_files + 1 iterations, where total_files
is the pending count at entry and distinct_bad_files is the final bad
count. -/
theorem C1_amended_termination {σ : Type} (count : σ → Nat)
    (process : σ → Nat → Nat × List String × σ) (B : Nat) (env : σ)
    (hcount : ∀ s k, count (process s k).2.2 ≤ count s)
    (hbad : ∀ s k, k ≤ B → k + (process s k).1 ≤ B) :
    ∃ out, convergenceLoop count process (count env + B + 1) 0 [] env = some out ∧
      out.iterations ≤ count env + out.bad + 1 ∧ out.bad ≤ B := by
  obtain ⟨out, h, h1, _, h3⟩ :=
    convergenceLoop_total count process B hcount hbad (count env + B + 1) 0 [] env
      (Nat.zero_le B) (by omega)
  exact ⟨out, h, by omega, h3⟩

/-- Witness for C1_amended_termination: a processor over a constant
pending count 0 that reports one bad file on the first call and none
afterwards; the loop terminates in 2 iterations, within the amended
bound 0 + 1 + 1. -/
theorem C1_amended_termination_witness :
    ∃ out, convergenceLoop (fun _ : Unit => 0)
        (fun s k => (if k = 0 then 1 else 0, [], s)) (0 + 1 + 1) 0 [] () = some out ∧
      out.iterations ≤ 0 + out.bad + 1 ∧ out.bad ≤ 1 :=
  C1_amended_termination (fun _ : Unit => 0)
    (fun s k => (if k = 0 then 1 else 0, [], s)) 1 ()
    (fun _ _ => Nat.le_refl 0)
    (fun _ k hk => by
      by_cases h0 : k = 0
      · simp [h0]
      · simp [h0]
        omega)

/-- Fixed pending count used in the concrete C2 scenario. -/
def c2Count : Nat → Nat := fun _ => 3

/-- Processor used in the concrete C2 scenario: the state is a call
counter; the first call finds 2 bad files, later calls none. -/
def c2Process : Nat → Nat → Nat × List String × Nat :=
  fun s _ => (if s = 0 then 2 else 0, [], s + 1)

/-- Claim C2 (confirmed): in every iteration of the convergence loop, the
loop exits exactly when the pending count is unchanged across the
processor call and no new bad files were found; otherwise it performs
another iteration whose processor call receives skip_count equal to the
accumulated bad count. -/
theorem C2_loop_step {σ : Type} (count : σ → Nat)
    (process : σ → Nat → Nat × List String × σ)
    (fuel bad : Nat) (errs : List String) (env : σ) (out : LoopOut σ)
    (h : convergenceLoop count process (fuel + 1) bad errs env = some out) :
    (count env = count (process env bad).2.2 ∧ (process env bad).1 = 0 →
       out.iterations = 1 ∧ out.bad = bad ∧ out.calls = [bad]) ∧
    (¬(count env = count (process env bad).2.2 ∧ (process env bad).1 = 0) →
       2 ≤ out.iterations ∧
       ∃ tl, out.calls = bad :: (bad + (process env bad).1) :: tl) := by
  rcases hp : process env bad with ⟨delta, newErrs, env2⟩
  dsimp only
  rw [convergenceLoop, hp] at h
  dsimp only at h
  by_cases hcond : count env = count env2 ∧ bad = bad + delta
  · rw [if_pos hcond] at h
    injection h with h'
    subst h'
    constructor
    · intro _
      exact ⟨rfl, by dsimp only; omega, rfl⟩
    · intro hn
      exact absurd ⟨hcond.1, by omega⟩ hn
  · rw [if_neg hcond] at h
    cases hrec : convergenceLoop count process fuel (bad + delta) (errs ++ newErrs) env2 with
    | none => rw [hrec] at h; cases h
    | some out2 =>
      rw [hrec] at h
      injection h with h'
      subst h'
      obtain ⟨hit, tl, hcalls⟩ :=
        convergenceLoop_head count process fuel (bad + delta) (errs ++ newErrs) env2 out2 hrec
      constructor
      · rintro ⟨hq, hd⟩
        exact absurd ⟨hq, by omega⟩ hcond
      · intro _
        refine ⟨by dsimp only; omega, tl, ?_⟩
        dsimp only
        rw [hcalls]

/-- Witness for C2_loop_step: the concrete scenario makes progress on its
first iteration (2 new bad files), so the loop continues and the next
processor call receives skip_count 0 + 2. -/
theorem C2_loop_step_witness :
    (c2Count 0 = c2Count ((c2Process 0 0).2.2) ∧ (c2Process 0 0).1 = 0 →
       (⟨2, 2, [], [0, 2], 2⟩ : LoopOut Nat).iterations = 1 ∧
       (⟨2, 2, [], [0, 2], 2⟩ : LoopOut Nat).bad = 0 ∧
       (⟨2, 2, [], [0, 2], 2⟩ : LoopOut Nat).calls = [0]) ∧
    (¬(c2Count 0 = c2Count ((c2Process 0 0).2.2) ∧ (c2Process 0 0).1 = 0) →
       2 ≤ (⟨2, 2, [], [0, 2], 2⟩ : LoopOut Nat).iterations ∧
       ∃ tl, (⟨2, 2, [], [0, 2], 2⟩ : LoopOut Nat).calls
         = 0 :: (0 + (c2Process 0 0).1) :: tl) :=
  C2_loop_step c2Count c2Process 3 0 [] 0 ⟨2, 2, [], [0, 2], 2⟩ rfl

/-- Claim C6 (confirmed): when the pending count never changes, the first
processor call reports the full page P as newly bad, and the call after it
(with skip_count P) reports none, the convergence loop terminates after
exactly 2 iterations with bad count P; the two processor calls received
skip counts 0 and P. -/
theorem C6_all_bad_two_iterations {σ : Type} (count : σ → Nat)
    (process : σ → Nat → Nat × List String × σ) (env : σ) (P : Nat)
    (hP : 0 < P)
    (hconst : ∀ s, count s = count env)
    (h1 : (process env 0).1 = P)
    (h2 : (process ((process env 0).2.2) P).1 = 0)
    (fuel : Nat) (hfuel : 2 ≤ fuel) :
    ∃ out, convergenceLoop count process fuel 0 [] env = some out ∧
      out.iterations = 2 ∧ out.bad = P ∧ out.calls = [0, P] := by
  obtain ⟨f, rfl⟩ : ∃ f, fuel = f + 2 := ⟨fuel - 2, by omega⟩
  rcases hp1 : process env 0 with ⟨d1, e1, s1⟩
  rw [hp1] at h1 h2
  dsimp only at h1 h2
  subst h1
  rcases hp2 : process s1 d1 with ⟨d2, e2, s2⟩
  rw [hp2] at h2
  dsimp only at h2
  subst h2
  have hneg1 : ¬(count env = count s1 ∧ 0 = 0 + d1) := by
    intro hand
    omega
  have hpos2 : count s1 = count s2 ∧ d1 = d1 + 0 := ⟨(hconst s1).trans (hconst s2).symm, rfl⟩
  refine ⟨⟨2, d1, e1 ++ e2, [0, d1], s2⟩, ?_, rfl, rfl, rfl⟩
  rw [convergenceLoop, hp1]
  dsimp only
  rw [if_neg hneg1]
  rw [show (0 : Nat) + d1 = d1 from by omega, List.nil_append]
  rw [convergenceLoop, hp2]
  dsimp only
  rw [if_pos hpos2]
  rfl

/-- Witness for C6_all_bad_two_iterations: a page of 5 files that are all
bad, over a pending count fixed at 7; the loop stops after 2 iterations
with 5 bad files. -/
theorem C6_all_bad_two_iterations_witness :
    ∃ out, convergenceLoop (fun _ : Nat => 7)
        (fun s _ => (if s = 0 then 5 else 0, [], s + 1)) 2 0 [] 0 = some out ∧
      out.iterations = 2 ∧ out.bad = 5 ∧ out.calls = [0, 5] :=
  C6_all_bad_two_iterations (fun _ : Nat => 7)
    (fun s _ => (if s = 0 then 5 else 0, [], s + 1)) 0 5
    (by decide) (fun _ => rfl) rfl rfl 2 (Nat.le_refl 2)

/-- Claim C7, counterexample: with 0 pending files and a processor finding
nothing, the source loop still executes one iteration and invokes the
processor once (the recorded skip_count list is [0], not empty), because
the while-True body runs before any exit test. -/
theorem C7_counterexample :
    convergenceLoop (fun _ : Unit => 0) (fun s _ => (0, [], s)) 3 0 [] ()
      = some ⟨1, 0, [], [0], ()⟩ ∧ ([0] : List Nat) ≠ [] :=
  ⟨rfl, by decide⟩

/-- Claim C7, amended: for a user with 0 pending files and a processor
reporting 0 new bad files, the convergence loop performs exactly one
iteration, invoking the processor exactly once with skip_count 0, and
exits with 0 bad files. -/
theorem C7_amended {σ : Type} (count : σ → Nat)
    (process : σ → Nat → Nat × List String × σ) (env : σ)
    (hc0 : count env = 0)
    (hd0 : (process env 0).1 = 0)
    (hc1 : count ((process env 0).2.2) = 0)
    (fuel : Nat) (hfuel : 1 ≤ fuel) :
    ∃ out, convergenceLoop count process fuel 0 [] env = some out ∧
      out.iterations = 1 ∧ out.bad = 0 ∧ out.calls = [0] := by
  obtain ⟨f, rfl⟩ : ∃ f, fuel = f + 1 := ⟨fuel - 1, by omega⟩
  rcases hp : process env 0 with ⟨d, e, s1⟩
  rw [hp] at hd0 hc1
  dsimp only at hd0 hc1
  subst hd0
  have hpos : count env = count s1 ∧ 0 = 0 + 0 := ⟨hc0.trans hc1.symm, rfl⟩
  refine ⟨⟨1, 0 + 0, [] ++ e, [0], s1⟩, ?_, rfl, rfl, rfl⟩
  rw [convergenceLoop, hp]
  dsimp only
  rw [if_pos hpos]

/-- Witness for C7_amended: the trivial empty queue. -/
theorem C7_amended_witness :
    ∃ out, convergenceLoop (fun _ : Unit => 0) (fun s _ => (0, [], s)) 1 0 [] ()
      = some out ∧ out.iterations = 1 ∧ out.bad = 0 ∧ out.calls = [0] :=
  C7_amended (fun _ : Unit => 0) (fun s _ => (0, [], s)) () rfl rfl rfl 1 (Nat.le_refl 1)

/-- Claim C8, counterexample: the loop accumulates one error, the email
channel fails, and the failure propagates out of the worker (the outcome
of celery_process_file_chunks is the email failure, not a swallowed one):
the reporting-path failure is not swallowed. -/
theorem C8_counterexample :
    celery_process_file_chunks (fun _ : Unit => 0) (fun s _ => (0, ["boom"], s))
      (Except.error "smtp down") 5 ()
      = some (⟨1, 0, ["boom"], [0], ()⟩, Except.error "smtp down") := rfl

/-- Claim C8, amended: after the loop exits, nothing is reported when the
collector is empty; when it is non-empty and the email channel succeeds,
all accumulated errors are bundled into exactly one report handed to the
channel; but a failure raised by the email channel itself propagates out
of the worker instead of being swallowed (only the bundled error raised by
raise_errors is caught). -/
theorem C8_amended {σ : Type} (count : σ → Nat)
    (process : σ → Nat → Nat × List String × σ) (email : Except String Unit)
    (fuel : Nat) (env : σ) (out : LoopOut σ) (rep : Except String (List (List String)))
    (h : celery_process_file_chunks count process email fuel env = some (out, rep)) :
    (out.errors = [] → rep = Except.ok []) ∧
    (out.errors ≠ [] → email = Except.ok () → rep = Except.ok [out.errors]) ∧
    (∀ e, out.errors ≠ [] → email = Except.error e → rep = Except.error e) := by
  rw [celery_process_file_chunks] at h
  cases hl : convergenceLoop count process fuel 0 [] env with
  | none => rw [hl] at h; cases h
  | some out2 =>
    rw [hl] at h
    injection h with h'
    injection h' with h1 h2
    subst h1
    subst h2
    refine ⟨?_, ?_, ?_⟩
    · intro he
      simp [errorReporting, he]
    · intro he hok
      subst hok
      simp [errorReporting, List.isEmpty_iff, he]
    · intro e he herr
      subst herr
      simp [errorReporting, List.isEmpty_iff, he]

/-- Witness for C8_amended: one accumulated error and a failing email
channel; the failure propagates as the worker outcome. -/
theorem C8_amended_witness :
    ((⟨1, 0, ["boom"], [0], ()⟩ : LoopOut Unit).errors = [] →
       (Except.error "smtp down" : Except String (List (List String))) = Except.ok []) ∧
    ((⟨1, 0, ["boom"], [0], ()⟩ : LoopOut Unit).errors ≠ [] →
       (Except.error "smtp down" : Except String Unit) = Except.ok () →
       (Except.error "smtp down" : Except String (List (List String)))
         = Except.ok [(⟨1, 0, ["boom"], [0], ()⟩ : LoopOut Unit).errors]) ∧
    (∀ e, (⟨1, 0, ["boom"], [0], ()⟩ : LoopOut Unit).errors ≠ [] →
       (Except.error "smtp down" : Except String Unit) = Except.error e →
       (Except.error "smtp down" : Except String (List (List String))) = Except.error e) :=
  C8_amended (fun _ : Unit => 0) (fun s _ => (0, ["boom"], s))
    (Except.error "smtp down") 5 () ⟨1, 0, ["boom"], [0], ()⟩
    (Except.error "smtp down") rfl

/-- Claim C3 (confirmed): invoking create_file_processing_tasks while the
Run Lock is already held raises ProcessingOverlapError before anything
else happens: no work unit is dispatched, lock() is never called,
unlock() is never called, and the lock flag is left as it was (held). -/
theorem C3_overlap_fatal (env : RunEnv) (fuel : Nat) (h : env.lockHeld = true) :
    create_file_processing_tasks env fuel =
      some ⟨Except.error PyErr.processingOverlapError, true, false, 0, [], [], 0⟩ := by
  rw [create_file_processing_tasks, h]
  simp

/-- Witness for C3_overlap_fatal at a concrete held-lock environment. -/
theorem C3_overlap_fatal_witness :
    create_file_processing_tasks
        ⟨true, 2026, 10, 12, 14, 30, ["u1", "u2"], fun _ _ => "STARTED"⟩ 7 =
      some ⟨Except.error PyErr.processingOverlapError, true, false, 0, [], [], 0⟩ :=
  C3_overlap_fatal ⟨true, 2026, 10, 12, 14, 30, ["u1", "u2"], fun _ _ => "STARTED"⟩ 7 rfl

/-- Claim C4, counterexample: a run invoked at 23:59 acquires the lock
(acquired = true) and then dies on the ValueError raised by the expiry
computation datetime(..., hour=24); unlock() is never called
(unlocks = 0) and the lock flag stays held (lockFinal = true), so the
lock is not released on this error exit path. -/
theorem C4_counterexample :
    create_file_processing_tasks
        ⟨false, 2027, 1, 31, 23, 59, ["alice", "bob"], fun _ _ => "STARTED"⟩ 9 =
      some ⟨Except.error PyErr.valueError, true, true, 0, [], [], 0⟩ := rfl

/-- Claim C4, amended: every run of create_file_processing_tasks that
completes normally (its polling loop drains and no exception escapes)
calls unlock() exactly once and leaves the lock free, including when some
or all dispatched units failed; but an exception escaping between lock()
and unlock() (the hour-23 ValueError of the deadline computation) leaves
the lock held, as C4_counterexample shows. -/
theorem C4_amended (env : RunEnv) (fuel : Nat) (trace : RunTrace)
    (h : create_file_processing_tasks env fuel = some trace)
    (hok : trace.outcome = Except.ok ()) :
    trace.acquired = true ∧ trace.unlocks = 1 ∧ trace.lockFinal = false := by
  rw [create_file_processing_tasks] at h
  by_cases hl : env.lockHeld
  · rw [if_pos hl] at h
    injection h with h'
    subst h'
    simp at hok
  · rw [if_neg hl] at h
    cases hd : pyDatetime env.year env.month env.day (env.hour + 1) with
    | error e =>
      rw [hd] at h
      injection h with h'
      subst h'
      simp at hok
    | ok expiry =>
      rw [hd] at h
      dsimp only at h
      cases hpoll : pollLoop env.states fuel 0 (List.range env.userIds.dedup.length) with
      | none =>
        rw [hpoll] at h
        cases h
      | some pr =>
        obtain ⟨ps, sl⟩ := pr
        rw [hpoll] at h
        injection h with h'
        subst h'
        exact ⟨rfl, rfl, rfl⟩

/-- Witness for C4_amended: a run whose only dispatched unit fails still
releases the lock exactly once. -/
theorem C4_amended_witness :
    (⟨Except.ok (), false, true, 1, [("u1", ⟨2026, 10, 12, 15, 0⟩)],
        [⟨[], [0], []⟩], 1⟩ : RunTrace).acquired = true ∧
    (⟨Except.ok (), false, true, 1, [("u1", ⟨2026, 10, 12, 15, 0⟩)],
        [⟨[], [0], []⟩], 1⟩ : RunTrace).unlocks = 1 ∧
    (⟨Except.ok (), false, true, 1, [("u1", ⟨2026, 10, 12, 15, 0⟩)],
        [⟨[], [0], []⟩], 1⟩ : RunTrace).lockFinal = false :=
  C4_amended ⟨false, 2026, 10, 12, 14, 30, ["u1"], fun _ _ => "FAILURE"⟩ 7
    ⟨Except.ok (), false, true, 1, [("u1", ⟨2026, 10, 12, 15, 0⟩)], [⟨[], [0], []⟩], 1⟩
    rfl rfl

/-- Claim C5 (code_bug), evaluated at the failing input: at 14:37 the
computed deadline is 15:00 of the same day and is attached to every
dispatched unit, as the claim says; but at an invocation with
now.hour = 23 the expiry computation datetime(now.year, now.month,
now.day, hour=now.hour + 1) asks for hour 24, which raises ValueError:
no deadline exists, nothing is dispatched, and the run aborts with the
lock held, where the claim requires the deadline 00:00 of the next day. -/
theorem C5_hour23_value_error :
    pyDatetime 2026 10 12 (23 + 1) = Except.error PyErr.valueError ∧
    create_file_processing_tasks
        ⟨false, 2026, 10, 12, 23, 15, ["u1"], fun _ _ => "SUCCESS"⟩ 7 =
      some ⟨Except.error PyErr.valueError, true, true, 0, [], [], 0⟩ ∧
    create_file_processing_tasks
        ⟨false, 2026, 10, 12, 14, 37, ["u1", "u2"], fun _ _ => "SUCCESS"⟩ 7 =
      some ⟨Except.ok (), false, true, 1,
        [("u1", ⟨2026, 10, 12, 15, 0⟩), ("u2", ⟨2026, 10, 12, 15, 0⟩)],
        [⟨[0, 1], [], []⟩], 1⟩ :=
  ⟨rfl, rfl, rfl⟩

/-- Claim C9, counterexample: with a single future already in SUCCESS
state, the polling loop runs one pass after which nothing remains
outstanding (new_running of the only pass is empty), yet one sleep(5) is
executed: the source sleeps at the end of every pass, not only when some
handle remains outstanding before re-polling. -/
theorem C9_counterexample :
    pollLoop (fun _ _ => "SUCCESS") 5 0 [0] = some ([⟨[0], [], []⟩], 1) ∧
    (⟨[0], [], []⟩ : PollPassOut).newRunning = [] :=
  ⟨rfl, rfl⟩

/-- Claim C9, amended: in every pass of a terminating polling loop, the
outstanding handles are partitioned by their observed state into
succeeded, failed and still-outstanding (membership characterized for
every outstanding handle), the outstanding set is replaced by the
still-outstanding partition, the loop runs while handles remain and stops
as soon as none remain; the orchestrator sleeps 5 seconds at the end of
every executed pass, including the final one after which nothing remains
outstanding (not only before an actual re-poll). -/
theorem C9_poll_amended (states : Nat → Nat → String) (fuel idx : Nat)
    (running : List Nat) (ps : List PollPassOut) (sl : Nat)
    (h : pollLoop states fuel idx running = some (ps, sl)) :
    sl = ps.length ∧
    runningSeq states idx running ps.length = [] ∧
    (∀ i, ∀ hi : i < ps.length,
      runningSeq states idx running i ≠ [] ∧
      ps.get ⟨i, hi⟩ = pollPass (states (idx + i)) (runningSeq states idx running i)) ∧
    (∀ st l f, f ∈ l →
      ((f ∈ (pollPass st l).successful ↔ st f = "SUCCESS") ∧
       (f ∈ (pollPass st l).failed ↔ st f = "FAILURE") ∧
       (f ∈ (pollPass st l).newRunning ↔ st f ∈ STARTED_OR_WAITING))) := by
  obtain ⟨h1, h2, h3⟩ := pollLoop_spec states fuel idx running ps sl h
  refine ⟨h1, h2, h3, ?_⟩
  intro st l f hf
  exact ⟨by rw [pollPass_mem_successful]; exact and_iff_right hf,
         by rw [pollPass_mem_failed]; exact and_iff_right hf,
         by rw [pollPass_mem_newRunning]; exact and_iff_right hf⟩

/-- Witness for C9_poll_amended: one future that is STARTED in pass 0 and
SUCCESS in pass 1; two passes, two sleeps. -/
theorem C9_poll_amended_witness :
    2 = ([⟨[], [], [0]⟩, ⟨[0], [], []⟩] : List PollPassOut).length ∧
    runningSeq (fun i _ => if i = 0 then "STARTED" else "SUCCESS") 0 [0]
      ([⟨[], [], [0]⟩, ⟨[0], [], []⟩] : List PollPassOut).length = [] ∧
    (∀ i, ∀ hi : i < ([⟨[], [], [0]⟩, ⟨[0], [], []⟩] : List PollPassOut).length,
      runningSeq (fun i _ => if i = 0 then "STARTED" else "SUCCESS") 0 [0] i ≠ [] ∧
      ([⟨[], [], [0]⟩, ⟨[0], [], []⟩] : List PollPassOut).get ⟨i, hi⟩ =
        pollPass ((fun i _ => if i = 0 then "STARTED" else "SUCCESS") i)
          (runningSeq (fun i _ => if i = 0 then "STARTED" else "SUCCESS") 0 [0] i)) ∧
    (∀ st l f, f ∈ l →
      ((f ∈ (pollPass st l).successful ↔ st f = "SUCCESS") ∧
       (f ∈ (pollPass st l).failed ↔ st f = "FAILURE") ∧
       (f ∈ (pollPass st l).newRunning ↔ st f ∈ STARTED_OR_WAITING))) := by
  have h := C9_poll_amended (fun i _ => if i = 0 then "STARTED" else "SUCCESS") 5 0 [0]
    [⟨[], [], [0]⟩, ⟨[0], [], []⟩] 2 rfl
  simpa using h

/-- Claim C10 (confirmed): a handle whose observed state string is none of
SUCCESS, FAILURE, STARTED, or the queued placeholder is placed in no
partition and hence removed from the outstanding set; concretely, a run
whose only unit stays PENDING (the real celery state for a queued task)
completes its polling loop after one pass with the unit never observed in
a terminal partition, and the Run Lock is released. -/
theorem C10_unmatched_state_dropped (st : Nat → String) (l : List Nat) (f : Nat)
    (h1 : st f ≠ "SUCCESS") (h2 : st f ≠ "FAILURE")
    (h3 : st f ∉ STARTED_OR_WAITING) :
    (f ∉ (pollPass st l).successful ∧ f ∉ (pollPass st l).failed ∧
     f ∉ (pollPass st l).newRunning) ∧
    create_file_processing_tasks
        ⟨false, 2026, 10, 12, 14, 30, ["u1"], fun _ _ => "PENDING"⟩ 7 =
      some ⟨Except.ok (), false, true, 1, [("u1", ⟨2026, 10, 12, 15, 0⟩)],
        [⟨[], [], []⟩], 1⟩ := by
  refine ⟨⟨?_, ?_, ?_⟩, rfl⟩
  · rw [pollPass_mem_successful]
    rintro ⟨-, hs⟩
    exact h1 hs
  · rw [pollPass_mem_failed]
    rintro ⟨-, hs⟩
    exact h2 hs
  · rw [pollPass_mem_newRunning]
    rintro ⟨-, hs⟩
    exact h3 hs

/-- Witness for C10_unmatched_state_dropped at the PENDING state over two
outstanding futures. -/
theorem C10_unmatched_state_dropped_witness :
    ((0 ∉ (pollPass (fun _ => "PENDING") [0, 1]).successful ∧
      0 ∉ (pollPass (fun _ => "PENDING") [0, 1]).failed ∧
      0 ∉ (pollPass (fun _ => "PENDING") [0, 1]).newRunning) ∧
     create_file_processing_tasks
         ⟨false, 2026, 10, 12, 14, 30, ["u1"], fun _ _ => "PENDING"⟩ 7 =
       some ⟨Except.ok (), false, true, 1, [("u1", ⟨2026, 10, 12, 15, 0⟩)],
         [⟨[], [], []⟩], 1⟩) :=
  C10_unmatched_state_dropped (fun _ => "PENDING") [0, 1] 0
    (by decide) (by decide) (by decide)

end BeiweProc
